import Mathlib

/-!
Verification development for the crypto-market LLM agent's memory and
parsing core (`src/models/data_structures.py`, `src/models/memory_systems.py`,
`src/models/agent.py`).  Python floats are modelled as exact rationals
(`Rat`); `datetime` values as either calendar records (where rendered) or
plain `Nat` ordering keys (where only compared); `uuid`/`datetime.now`
generated fields are passed as explicit parameters at the call sites that
create records.  The LLM invocation is opaque in the source and is modelled
by passing the reply text as a parameter.
-/

namespace CryptoAgent

/-! ### Python string primitives -/

/-- Model of Python `str.split('\n')`: split a character list at newline
characters, keeping empty segments (so the empty string yields `[""]`). -/
def splitLinesAux : List Char → List Char → List String
  | [], acc => [⟨acc.reverse⟩]
  | c :: t, acc =>
    if c = '\n' then ⟨acc.reverse⟩ :: splitLinesAux t []
    else splitLinesAux t (c :: acc)

/-- Model of Python `text.split('\n')`. -/
def pySplitLines (s : String) : List String := splitLinesAux s.data []

/-- Model of Python `s.startswith(p)`. -/
def pyStartsWith (s p : String) : Bool := p.data.isPrefixOf s.data

/-- Model of Python `s.strip()`: drop whitespace from both ends. -/
def pyStrip (s : String) : String :=
  ⟨((s.data.dropWhile Char.isWhitespace).reverse.dropWhile Char.isWhitespace).reverse⟩

/-- Fuelled worker for `pyReplace`; the fuel is the length of the scanned
list, and every step consumes at least one character, so the fuel never
runs out on the actual call. -/
def pyReplaceAux (pat rep : List Char) : Nat → List Char → List Char
  | _, [] => []
  | 0, l => l
  | fuel + 1, c :: t =>
    if pat ≠ [] ∧ pat.isPrefixOf (c :: t) then
      rep ++ pyReplaceAux pat rep fuel ((c :: t).drop pat.length)
    else
      c :: pyReplaceAux pat rep fuel t

/-- Model of Python `s.replace(pat, rep)`: replace every occurrence,
scanning left to right. -/
def pyReplace (s pat rep : String) : String :=
  ⟨pyReplaceAux pat.data rep.data s.data.length s.data⟩

/-- Numeric value of a digit list, most significant first. -/
def digitsVal (ds : List Char) : Nat := ds.foldl (fun n c => 10 * n + (c.toNat - 48)) 0

/-- Exponent part of a Python float literal: optional sign then digits. -/
def pyFloatExp (sgn mant : Rat) (t : List Char) : Option Rat :=
  let p : Bool × List Char :=
    match t with
    | '+' :: u => (false, u)
    | '-' :: u => (true, u)
    | _ => (false, t)
  let ed := p.2.takeWhile Char.isDigit
  if ed.isEmpty ∨ ¬ (p.2.drop ed.length).isEmpty then none
  else if p.1 then some (sgn * mant / ((10 : Rat) ^ digitsVal ed))
  else some (sgn * mant * ((10 : Rat) ^ digitsVal ed))

/-- Model of Python `float(s)` on finite decimal literals
(`[sign] digits [. digits] [e|E [sign] digits]`), returning `none` where
Python raises `ValueError`.  The special forms `inf`/`nan` and digit-group
underscores are outside the scope of this embedding. -/
def pyFloat (s : String) : Option Rat :=
  let q : Rat × List Char :=
    match s.data with
    | '+' :: t => (1, t)
    | '-' :: t => (-1, t)
    | t => (1, t)
  let ip := q.2.takeWhile Char.isDigit
  let r1 := q.2.drop ip.length
  let fr : List Char × List Char :=
    match r1 with
    | '.' :: t => (t.takeWhile Char.isDigit, t.drop (t.takeWhile Char.isDigit).length)
    | _ => ([], r1)
  if ip.isEmpty ∧ fr.1.isEmpty then none
  else
    let mant : Rat := (digitsVal ip : Rat) + (digitsVal fr.1 : Rat) / ((10 : Rat) ^ fr.1.length)
    match fr.2 with
    | [] => some (q.1 * mant)
    | 'e' :: t => pyFloatExp q.1 mant t
    | 'E' :: t => pyFloatExp q.1 mant t
    | _ => none

/-! ### Response parsing (`LLMAgent.make_recommendation`, lines 126-151) -/

/-- The three fields the recommendation-parsing section of
`LLMAgent.make_recommendation` extracts from the reply text. -/
structure DecisionFields where
  recommendation : String
  confidence : Rat
  reasoning : String
deriving DecidableEq

/-- One iteration of the `for line in response_text.split('\n')` loop in
`LLMAgent.make_recommendation`: the `RECOMMENDATION:` branch keeps only the
literals `Long`/`Short` and otherwise falls back on the current confidence;
the `CONFIDENCE:` branch sets 0.7 when `float` fails; the `REASONING:`
branch overwrites. -/
def parse_decision_step (st : DecisionFields) (line : String) : DecisionFields :=
  if pyStartsWith line "RECOMMENDATION:" then
    let er := pyStrip (pyReplace line "RECOMMENDATION:" "")
    if er = "Long" ∨ er = "Short" then { st with recommendation := er }
    else { st with recommendation := if (1 : Rat)/2 < st.confidence then "Long" else "Short" }
  else if pyStartsWith line "CONFIDENCE:" then
    match pyFloat (pyStrip (pyReplace line "CONFIDENCE:" "")) with
    | some v => { st with confidence := v }
    | none => { st with confidence := 7/10 }
  else if pyStartsWith line "REASONING:" then
    { st with reasoning := pyStrip (pyReplace line "REASONING:" "") }
  else st

/-- The parsing section of `LLMAgent.make_recommendation` (agent.py lines
126-151): scan the reply line by line from the initial state
`("", 0.5, "")`, then, if no recommendation was captured at all, apply the
`> 0.5` fallback once more.  Total by construction: the only fallible
primitive, `float`, is wrapped in the source's `try/except`. -/
def parse_decision (text : String) : DecisionFields :=
  let st := (pySplitLines text).foldl parse_decision_step ⟨"", 1/2, ""⟩
  if st.recommendation = "" then
    { st with recommendation := if (1 : Rat)/2 < st.confidence then "Long" else "Short" }
  else st

/-- The three fields the fact-parsing section of `LLMAgent.process_feedback`
extracts from the reply text. -/
structure FactFields where
  fact_text : String
  category : String
  confidence : Rat
deriving DecidableEq

/-- One iteration of the fact-parsing loop in `LLMAgent.process_feedback`
(agent.py lines 190-199); `CONFIDENCE:` keeps the previous value when
`float` fails (`except ValueError: pass`). -/
def parse_fact_step (st : FactFields) (line : String) : FactFields :=
  if pyStartsWith line "NEW FACT:" then
    { st with fact_text := pyStrip (pyReplace line "NEW FACT:" "") }
  else if pyStartsWith line "CATEGORY:" then
    { st with category := pyStrip (pyReplace line "CATEGORY:" "") }
  else if pyStartsWith line "CONFIDENCE:" then
    match pyFloat (pyStrip (pyReplace line "CONFIDENCE:" "")) with
    | some v => { st with confidence := v }
    | none => st
  else st

/-- The fact-parsing section of `LLMAgent.process_feedback` (agent.py lines
186-199), starting from `("", "general", 0.5)`. -/
def parse_fact (text : String) : FactFields :=
  (pySplitLines text).foldl parse_fact_step ⟨"", "general", 1/2⟩

/-! ### Typed records (`data_structures.py`) -/

/-- Calendar timestamp, for the fields rendered with
`strftime('%Y-%m-%d %H:%M')`. -/
structure PyDateTime where
  year : Nat
  month : Nat
  day : Nat
  hour : Nat
  minute : Nat
deriving DecidableEq

/-- Embeds `NewsItem` from data_structures.py. -/
structure NewsItem where
  date : PyDateTime
  text : String
  source : String := "Crypto News"
  category : String := "Crypto"
  next_t_close : Option Rat := none
  target : Option String := none
  diff_perc : Option Rat := none
deriving DecidableEq

/-- Embeds `PriceData` from data_structures.py. -/
structure PriceData where
  date : PyDateTime
  asset : String
  price : Rat
  «open» : Option Rat := none
  high : Option Rat := none
  low : Option Rat := none
  close : Option Rat := none
  volume : Option Rat := none
  next_t_close : Option Rat := none
  close_7 : Option Rat := none
  close_30 : Option Rat := none
  close_90 : Option Rat := none
  target : Option String := none
  diff_perc : Option Rat := none
deriving DecidableEq

/-- Embeds `Fact` from data_structures.py; `timestamp` is the `datetime.now()`
ordering key and `fact_id` the generated `uuid4`, both supplied by the
creating call site. -/
structure Fact where
  fact : String
  source : String
  confidence : Rat
  category : String
  timestamp : Nat
  fact_id : String
deriving DecidableEq

/-- Embeds `Decision` from data_structures.py; `outcome`/`reward` start as `None`
and are set by `AutobiographicalMemory.update_outcome`. -/
structure Decision where
  recommendation : String
  confidence : Rat
  reasoning : String
  timestamp : Nat
  decision_id : String
  outcome : Option String := none
  reward : Option Rat := none
deriving DecidableEq

/-- Embeds `Consideration` from data_structures.py. -/
structure Consideration where
  text : String
  timestamp : Nat
  consideration_id : String
deriving DecidableEq

/-- Embeds `Thought` from data_structures.py. -/
structure Thought where
  content : String
  timestamp : Nat
  thought_id : String
deriving DecidableEq

/-! ### Shared Python idioms used by the stores -/

/-- The FIFO insertion step shared verbatim by Sensory, Short-Term,
Autobiographical, Working and Prospective memory: `list.append(x)` followed
by `if len(list) > cap: list.pop(0)`. -/
def fifoAdd (cap : Nat) (xs : List α) (x : α) : List α :=
  let ys := xs ++ [x]
  if cap < ys.length then ys.drop 1 else ys

/-- Insert `x` into an already `le`-sorted list, after every element `y`
with `le y x`; the worker of `pySortBy`. -/
def insertSorted (le : α → α → Bool) (x : α) : List α → List α
  | [] => [x]
  | y :: t => if le y x then y :: insertSorted le x t else x :: y :: t

/-- Stable sort with respect to the total preorder `le`, modelling Python's
stable `list.sort(key=...)`: elements are inserted in original order and an
incoming element lands after every earlier element `le`-below-or-equal to
it, so equal keys keep their original relative order. -/
def pySortBy (le : α → α → Bool) (l : List α) : List α :=
  l.foldl (fun acc x => insertSorted le x acc) []

/-- Model of Python `int(x)` on rationals: truncation toward zero. -/
def pyInt (x : Rat) : Int := if 0 ≤ x then x.floor else x.ceil

/-- Zero-pad a natural number to two digits (`%02d`, as in `%m`, `%d`,
`%H`, `%M`). -/
def pad2 (n : Nat) : String := if n < 10 then "0" ++ Nat.repr n else Nat.repr n

/-- Zero-pad a natural number to four digits (`%Y`). -/
def pad4 (n : Nat) : String :=
  if n < 10 then "000" ++ Nat.repr n
  else if n < 100 then "00" ++ Nat.repr n
  else if n < 1000 then "0" ++ Nat.repr n
  else Nat.repr n

/-- Model of `strftime('%Y-%m-%d %H:%M')`. -/
def fmtDateTime (d : PyDateTime) : String :=
  pad4 d.year ++ "-" ++ pad2 d.month ++ "-" ++ pad2 d.day ++ " " ++
    pad2 d.hour ++ ":" ++ pad2 d.minute

/-- Model of Python `f"{x:.2f}"` on (exact decimal) rationals: round to two
places, ties to even, then render with exactly two fractional digits. -/
def fmtFloat2 (x : Rat) : String :=
  let neg := x < 0
  let y : Rat := if neg then -x else x
  let scaled : Rat := y * 100
  let fl : Int := scaled.floor
  let fr : Rat := scaled - (fl : Rat)
  let n : Int :=
    if (1 : Rat)/2 < fr then fl + 1
    else if fr < 1/2 then fl
    else if fl % 2 = 0 then fl else fl + 1
  let m : Nat := n.toNat
  (if neg then "-" else "") ++ Nat.repr (m / 100) ++ "." ++ pad2 (m % 100)

/-- Model of Python `sep.join(parts)`. -/
def pyJoin (sep : String) : List String → String
  | [] => ""
  | [s] => s
  | s :: t => s ++ sep ++ pyJoin sep t

/-! ### Memory stores (`memory_systems.py`) -/

/-- Embeds `SensoryMemory`: two FIFO lists sharing one capacity knob. -/
structure SensoryMemory where
  news_items : List NewsItem
  price_data : List PriceData
  max_size : Nat
deriving DecidableEq

/-- Embeds `SensoryMemory.__init__` with the default `max_size=5`. -/
def SensoryMemory.init : SensoryMemory := ⟨[], [], 5⟩

/-- Embeds `SensoryMemory.add_news`: append, then pop the oldest when over
capacity. -/
def SensoryMemory.add_news (m : SensoryMemory) (x : NewsItem) : SensoryMemory :=
  { m with news_items := fifoAdd m.max_size m.news_items x }

/-- Embeds `SensoryMemory.add_price`. -/
def SensoryMemory.add_price (m : SensoryMemory) (x : PriceData) : SensoryMemory :=
  { m with price_data := fifoAdd m.max_size m.price_data x }

/-- One news line of `SensoryMemory.get_formatted`. -/
def sensoryNewsLine (item : NewsItem) : String :=
  "- " ++ fmtDateTime item.date ++ ": " ++ item.text ++ "\n"

/-- One price line of `SensoryMemory.get_formatted`; the volume suffix is
guarded by Python truthiness (`if item.volume:`), so `None` and `0.0` both
omit it. -/
def sensoryPriceLine (item : PriceData) : String :=
  "- " ++ fmtDateTime item.date ++ ": " ++ item.asset ++ " at $" ++ fmtFloat2 item.price ++
    (match item.volume with
     | some v => if v ≠ 0 then ", Volume: " ++ fmtFloat2 v else ""
     | none => "") ++ "\n"

/-- Embeds `SensoryMemory.get_formatted`. -/
def SensoryMemory.get_formatted (m : SensoryMemory) : String :=
  "## SENSORY MEMORY (CURRENT MARKET CONDITIONS)\n" ++
    "\n### Latest News:\n" ++ String.join (m.news_items.map sensoryNewsLine) ++
    "\n### Latest Prices:\n" ++ String.join (m.price_data.map sensoryPriceLine)

/-- Embeds `ShortTermMemory`: two FIFO lists with separate capacity knobs. -/
structure ShortTermMemory where
  news_items : List NewsItem
  price_data : List PriceData
  max_news : Nat
  max_prices : Nat
deriving DecidableEq

/-- Embeds `ShortTermMemory.__init__` with the defaults `max_news=15`,
`max_prices=30`. -/
def ShortTermMemory.init : ShortTermMemory := ⟨[], [], 15, 30⟩

/-- Embeds `ShortTermMemory.add_news`. -/
def ShortTermMemory.add_news (m : ShortTermMemory) (x : NewsItem) : ShortTermMemory :=
  { m with news_items := fifoAdd m.max_news m.news_items x }

/-- Embeds `ShortTermMemory.add_price`. -/
def ShortTermMemory.add_price (m : ShortTermMemory) (x : PriceData) : ShortTermMemory :=
  { m with price_data := fifoAdd m.max_prices m.price_data x }

/-- The price-statistics block of `ShortTermMemory.get_formatted`: present
only when `price_data` is nonempty, and lists only the non-`None` rolling
averages of the latest observation. -/
def shortTermStats (m : ShortTermMemory) : String :=
  match m.price_data.getLast? with
  | none => ""
  | some latest =>
    "\n### Price Statistics:\n" ++
      (match latest.close_7 with
       | some v => "- 7-day average: $" ++ fmtFloat2 v ++ "\n"
       | none => "") ++
      (match latest.close_30 with
       | some v => "- 30-day average: $" ++ fmtFloat2 v ++ "\n"
       | none => "") ++
      (match latest.close_90 with
       | some v => "- 90-day average: $" ++ fmtFloat2 v ++ "\n"
       | none => "")

/-- Embeds `ShortTermMemory.get_formatted`: statistics block plus the last five
news lines (`self.news_items[-5:]`). -/
def ShortTermMemory.get_formatted (m : ShortTermMemory) : String :=
  "## SHORT-TERM MEMORY (RECENT MARKET HISTORY)\n" ++ shortTermStats m ++
    "\n### Recent News Summary:\n" ++
    String.join ((m.news_items.drop (m.news_items.length - 5)).map sensoryNewsLine)

/-- Embeds `ProceduralMemory`: a fixed list of heuristics, never mutated. -/
structure ProceduralMemory where
  procedures : List String
deriving DecidableEq

/-- Embeds `ProceduralMemory.__init__`: the seven static heuristics. -/
def ProceduralMemory.init : ProceduralMemory :=
  ⟨["Analyze price trends by comparing current prices to 7, 30, and 90-day averages.",
    "Evaluate news sentiment for each news item (positive, negative, neutral).",
    "Look for correlations between news sentiment and price movements.",
    "Consider market volatility when making recommendations.",
    "Evaluate the credibility and impact of news sources.",
    "Analyze trading volume for unusual patterns indicating market sentiment.",
    "Look for divergences between news sentiment and price action, which may indicate market inefficiencies."]⟩

/-- The `enumerate(self.procedures, 1)` loop of
`ProceduralMemory.get_formatted`. -/
def enumLines : Nat → List String → String
  | _, [] => ""
  | i, p :: t => Nat.repr i ++ ". " ++ p ++ "\n" ++ enumLines (i + 1) t

/-- Embeds `ProceduralMemory.get_formatted`. -/
def ProceduralMemory.get_formatted (m : ProceduralMemory) : String :=
  "## PROCEDURAL MEMORY (HOW TO ANALYZE DATA)\n\n" ++ enumLines 1 m.procedures

/-- Embeds `LongTermMemory`: capacity-bounded fact store. -/
structure LongTermMemory where
  facts : List Fact
  max_facts : Nat
deriving DecidableEq

/-- Embeds `LongTermMemory.__init__` with the default `max_facts=30`. -/
def LongTermMemory.init : LongTermMemory := ⟨[], 30⟩

/-- Embeds `LongTermMemory.add_fact`: append; on overflow sort the stored list
in place ascending by confidence (stably) and pop the lowest-confidence
fact, leaving the survivors in sorted order. -/
def LongTermMemory.add_fact (m : LongTermMemory) (f : Fact) : LongTermMemory :=
  let fs := m.facts ++ [f]
  if m.max_facts < fs.length then
    { m with facts := (pySortBy (fun a b => a.confidence ≤ b.confidence) fs).drop 1 }
  else
    { m with facts := fs }

/-- The `categories` dict of `LongTermMemory.get_formatted`: Python dicts
preserve first-insertion order of keys, and each bucket accumulates facts
in traversal order. -/
def addToGroups (gs : List (String × List Fact)) (f : Fact) : List (String × List Fact) :=
  if gs.any (fun g => g.1 = f.category) then
    gs.map (fun g => if g.1 = f.category then (g.1, g.2 ++ [f]) else g)
  else
    gs ++ [(f.category, [f])]

/-- One fact line of `LongTermMemory.get_formatted`, with the confidence
rendered as `int(confidence * 100)` percent. -/
def ltmFactLine (f : Fact) : String :=
  "- " ++ f.fact ++ " (Confidence: " ++ toString (pyInt (f.confidence * 100)) ++ "%)\n"

/-- One category block of `LongTermMemory.get_formatted`: sort the bucket
descending by confidence (stably) and keep the top three. -/
def ltmCategoryBlock (g : String × List Fact) : String :=
  "\n#### " ++ g.1 ++ ":\n" ++
    String.join (((pySortBy (fun a b => b.confidence ≤ a.confidence) g.2).take 3).map ltmFactLine)

/-- Embeds `LongTermMemory.get_formatted`. -/
def LongTermMemory.get_formatted (m : LongTermMemory) : String :=
  "## LONG-TERM MEMORY (MARKET KNOWLEDGE)\n\n### Important Facts:\n" ++
    String.join ((m.facts.foldl addToGroups []).map ltmCategoryBlock)

/-- Embeds `AutobiographicalMemory`: FIFO decision history. -/
structure AutobiographicalMemory where
  decisions : List Decision
  max_decisions : Nat
deriving DecidableEq

/-- Embeds `AutobiographicalMemory.__init__` with the default `max_decisions=20`. -/
def AutobiographicalMemory.init : AutobiographicalMemory := ⟨[], 20⟩

/-- Embeds `AutobiographicalMemory.add_decision`. -/
def AutobiographicalMemory.add_decision (m : AutobiographicalMemory) (d : Decision) :
    AutobiographicalMemory :=
  { m with decisions := fifoAdd m.max_decisions m.decisions d }

/-- The `for decision in self.decisions: if decision.decision_id == ...`
loop of `AutobiographicalMemory.update_outcome`, with its `break`: only the
first match is updated, and no match leaves the list untouched. -/
def update_outcome_list (decision_id outcome : String) (reward : Rat) :
    List Decision → List Decision
  | [] => []
  | d :: t =>
    if d.decision_id = decision_id then
      { d with outcome := some outcome, reward := some reward } :: t
    else
      d :: update_outcome_list decision_id outcome reward t

/-- Embeds `AutobiographicalMemory.update_outcome`. -/
def AutobiographicalMemory.update_outcome (m : AutobiographicalMemory)
    (decision_id outcome : String) (reward : Rat) : AutobiographicalMemory :=
  { m with decisions := update_outcome_list decision_id outcome reward m.decisions }

/-- The local `decisions_with_outcomes` of
`AutobiographicalMemory.get_formatted`: filter to outcome-annotated
decisions and sort descending by timestamp (stably, as Python's
`sort(reverse=True)` does). -/
def decisionsWithOutcomes (m : AutobiographicalMemory) : List Decision :=
  pySortBy (fun a b => b.timestamp ≤ a.timestamp) (m.decisions.filter (fun d => d.outcome.isSome))

/-- One decision entry of `AutobiographicalMemory.get_formatted`. -/
def autobioEntry (d : Decision) : String :=
  "- Decision: " ++ d.recommendation ++ "\n" ++
    "  Reasoning: " ++ d.reasoning ++ "\n" ++
    "  Outcome: " ++ (match d.outcome with | some o => o | none => "None") ++ "\n" ++
    "  Reward: " ++ (match d.reward with | some r => fmtFloat2 r | none => "Unknown") ++ "\n\n"

/-- The recent-decisions block of `AutobiographicalMemory.get_formatted`:
present when any outcome-annotated decision exists, listing the three most
recent ones. -/
def autobioRecent (m : AutobiographicalMemory) : String :=
  if (decisionsWithOutcomes m).isEmpty then ""
  else
    "### Recent Decisions and Outcomes:\n" ++
      String.join (((decisionsWithOutcomes m).take 3).map autobioEntry)

/-- The `avg_reward` computed by `AutobiographicalMemory.get_formatted`:
the mean of `d.reward or 0` over ALL outcome-annotated decisions (not just
the three displayed). -/
def autobioAvgReward (m : AutobiographicalMemory) : Rat :=
  ((decisionsWithOutcomes m).map (fun d => d.reward.getD 0)).sum /
    ((decisionsWithOutcomes m).length : Rat)

/-- The overall-performance line of `AutobiographicalMemory.get_formatted`,
emitted only when at least three outcome-annotated decisions exist. -/
def autobioPerf (m : AutobiographicalMemory) : String :=
  if 3 ≤ (decisionsWithOutcomes m).length then
    "Overall performance: Average reward " ++ fmtFloat2 (autobioAvgReward m) ++
      " across " ++ Nat.repr (decisionsWithOutcomes m).length ++ " decisions.\n"
  else ""

/-- Embeds `AutobiographicalMemory.get_formatted`. -/
def AutobiographicalMemory.get_formatted (m : AutobiographicalMemory) : String :=
  "## AUTOBIOGRAPHICAL MEMORY (PAST DECISIONS & OUTCOMES)\n\n" ++
    autobioRecent m ++ autobioPerf m

/-- Embeds `WorkingMemory`: FIFO scratchpad of thoughts. -/
structure WorkingMemory where
  thoughts : List Thought
  max_thoughts : Nat
deriving DecidableEq

/-- Embeds `WorkingMemory.__init__` with the default `max_thoughts=10`. -/
def WorkingMemory.init : WorkingMemory := ⟨[], 10⟩

/-- Embeds `WorkingMemory.add_thought`; the `Thought` record's generated
timestamp and id are supplied by the caller. -/
def WorkingMemory.add_thought (m : WorkingMemory) (content : String) (ts : Nat)
    (tid : String) : WorkingMemory :=
  { m with thoughts := fifoAdd m.max_thoughts m.thoughts ⟨content, ts, tid⟩ }

/-- Embeds `WorkingMemory.clear`. -/
def WorkingMemory.clear (m : WorkingMemory) : WorkingMemory := { m with thoughts := [] }

/-- Embeds `WorkingMemory.get_formatted`. -/
def WorkingMemory.get_formatted (m : WorkingMemory) : String :=
  "## WORKING MEMORY (CURRENT ANALYSIS)\n\n" ++
    (if m.thoughts.isEmpty then "No current analysis in progress.\n"
     else
       "### Current Thought Process:\n" ++
         String.join (m.thoughts.map (fun t => t.content ++ "\n\n")))

/-- Embeds `ProspectiveMemory`: FIFO list of future considerations. -/
structure ProspectiveMemory where
  considerations : List Consideration
  max_considerations : Nat
deriving DecidableEq

/-- Embeds `ProspectiveMemory.__init__` with the default `max_considerations=10`. -/
def ProspectiveMemory.init : ProspectiveMemory := ⟨[], 10⟩

/-- Embeds `ProspectiveMemory.add_consideration`; the generated timestamp and id
are supplied by the caller. -/
def ProspectiveMemory.add_consideration (m : ProspectiveMemory) (text : String)
    (ts : Nat) (cid : String) : ProspectiveMemory :=
  { m with considerations := fifoAdd m.max_considerations m.considerations ⟨text, ts, cid⟩ }

/-- Embeds `ProspectiveMemory.get_formatted`. -/
def ProspectiveMemory.get_formatted (m : ProspectiveMemory) : String :=
  "## PROSPECTIVE MEMORY (FUTURE CONSIDERATIONS)\n\n" ++
    (if m.considerations.isEmpty then "No specific future considerations noted.\n"
     else
       "### Important Aspects to Consider:\n" ++
         String.join (m.considerations.map (fun c => "- " ++ c.text ++ "\n")))

/-- Method-level view of `LongTermMemory.get_formatted` as a state
transformer on the store: the Python body only builds and sorts per-call
local lists (`categories`, the per-category buckets) and never assigns to a
field of `self`, so its translation returns the text together with the
store record unchanged. -/
def LongTermMemory.get_formattedM (m : LongTermMemory) : String × LongTermMemory :=
  (LongTermMemory.get_formatted m, m)

/-- Method-level view of `AutobiographicalMemory.get_formatted` as a state
transformer: the body filters into the fresh local list
`decisions_with_outcomes` and sorts that local, never assigning to a field
of `self`. -/
def AutobiographicalMemory.get_formattedM (m : AutobiographicalMemory) :
    String × AutobiographicalMemory :=
  (AutobiographicalMemory.get_formatted m, m)

/-- Method-level view of `SensoryMemory.get_formatted` as a state
transformer: the body only appends to the per-call local `output` string
and never assigns to a field of `self`. -/
def SensoryMemory.get_formattedM (m : SensoryMemory) : String × SensoryMemory :=
  (SensoryMemory.get_formatted m, m)

/-- Method-level view of `ShortTermMemory.get_formatted` as a state
transformer: the body reads `price_data[-1]` and `news_items[-5:]` (the
slice is a fresh list) and never assigns to a field of `self`. -/
def ShortTermMemory.get_formattedM (m : ShortTermMemory) : String × ShortTermMemory :=
  (ShortTermMemory.get_formatted m, m)

/-- Method-level view of `ProceduralMemory.get_formatted` as a state
transformer: the body only enumerates `self.procedures` into the local
`output` and never assigns to a field of `self`. -/
def ProceduralMemory.get_formattedM (m : ProceduralMemory) : String × ProceduralMemory :=
  (ProceduralMemory.get_formatted m, m)

/-- Method-level view of `WorkingMemory.get_formatted` as a state
transformer: the body only reads `self.thoughts` and never assigns to a
field of `self`. -/
def WorkingMemory.get_formattedM (m : WorkingMemory) : String × WorkingMemory :=
  (WorkingMemory.get_formatted m, m)

/-- Method-level view of `ProspectiveMemory.get_formatted` as a state
transformer: the body only reads `self.considerations` and never assigns
to a field of `self`. -/
def ProspectiveMemory.get_formattedM (m : ProspectiveMemory) : String × ProspectiveMemory :=
  (ProspectiveMemory.get_formatted m, m)

/-! ### Agent orchestration (`agent.py`) -/

/-- The `system_prompt` literal set in `LLMAgent.__init__`, including its
leading newline and trailing indentation. -/
def system_prompt : String :=
  "\nYou are an advanced AI financial analyst with multiple memory systems.\nYour goal is to provide investment recommendations based on news and price data.\nAs you process information, you will build knowledge and learn from your past decisions.\nThink step by step and show your reasoning process before making final recommendations.\n\nYou have the following memory systems:\n1. Sensory Memory: Current market conditions (news and prices)\n2. Short-Term Memory: Recent market history with statistical features\n3. Procedural Memory: Methods for analyzing data\n4. Long-Term Memory: Facts and knowledge about market behavior\n5. Autobiographical Memory: Your past decisions and their outcomes\n6. Working Memory: Your current analysis\n7. Prospective Memory: Important aspects to consider in the future\n\nWhen making recommendations, consider all these memory systems and explain your reasoning.\n**Important:** If you have recommended \"Hold\" in several consecutive recommendations, you must take a decisive position in your next recommendation, choosing either \"Long\" or \"Short\".\n        "

/-- The memory state owned by `LLMAgent` (the LLM handle, being an opaque
external capability, has no counterpart in the embedding). -/
structure LLMAgent where
  sensory_memory : SensoryMemory
  short_term_memory : ShortTermMemory
  procedural_memory : ProceduralMemory
  long_term_memory : LongTermMemory
  autobiographical_memory : AutobiographicalMemory
  working_memory : WorkingMemory
  prospective_memory : ProspectiveMemory
deriving DecidableEq

/-- Embeds `LLMAgent.__init__` memory state with no persisted file present
(`load_memory` then keeps every freshly constructed default). -/
def LLMAgent.init : LLMAgent :=
  ⟨SensoryMemory.init, ShortTermMemory.init, ProceduralMemory.init, LongTermMemory.init,
    AutobiographicalMemory.init, WorkingMemory.init, ProspectiveMemory.init⟩

/-- The trailing query section of `LLMAgent._build_full_prompt`. -/
def querySection (query : String) : String :=
  "\n## NEW QUERY\n" ++ query ++ "\n\n## RESPONSE\nLet me think through this step by step:"

/-- Embeds `LLMAgent._build_full_prompt`: `"\n\n".join` of the system prompt, the
seven stores' formatted views in fixed order, and the query section. -/
def build_full_prompt (a : LLMAgent) (query : String) : String :=
  pyJoin "\n\n"
    [system_prompt,
     a.sensory_memory.get_formatted,
     a.short_term_memory.get_formatted,
     a.procedural_memory.get_formatted,
     a.long_term_memory.get_formatted,
     a.autobiographical_memory.get_formatted,
     a.working_memory.get_formatted,
     a.prospective_memory.get_formatted,
     querySection query]

/-- Embeds `LLMAgent.process_feedback` (agent.py lines 162-214).  The feedback
prompt is sent to the opaque LLM, whose reply is the `reply` parameter; the
generated timestamp/uuid of the `Fact` and `Consideration` created inside
are the `factTs`/`factId`/`consTs`/`consId` parameters.  Returns the new
agent state paired with the returned reply text. -/
def process_feedback (a : LLMAgent) (decision_id outcome : String) (reward : Rat)
    (reply : String) (factTs : Nat) (factId : String) (consTs : Nat) (consId : String) :
    LLMAgent × String :=
  let a1 := { a with
    autobiographical_memory := a.autobiographical_memory.update_outcome decision_id outcome reward }
  let ff := parse_fact reply
  if ff.fact_text ≠ "" then
    let new_fact : Fact :=
      { fact := ff.fact_text, source := "Feedback on decision " ++ decision_id,
        confidence := ff.confidence, category := ff.category,
        timestamp := factTs, fact_id := factId }
    let a2 := { a1 with long_term_memory := a1.long_term_memory.add_fact new_fact }
    let consideration :=
      "Consider the outcome of similar situations to decision " ++ decision_id ++
        " (" ++ ff.fact_text ++ ")"
    let a3 := { a2 with
      prospective_memory := a2.prospective_memory.add_consideration consideration consTs consId }
    (a3, reply)
  else
    (a1, reply)

/-! ### Auxiliary notions used by the statements -/

/-- The last `n` elements of a list, in order: the survivors of a FIFO
store of capacity `n` after the whole list was inserted. -/
def lastN (n : Nat) (l : List α) : List α := l.drop (l.length - n)

/-- Predicate on a reply line: if its `CONFIDENCE:` payload parses as a
float, the parsed value lies in `[0, 1]`. -/
def confWithinUnit (line : String) : Prop :=
  match pyFloat (pyStrip (pyReplace line "CONFIDENCE:" "")) with
  | some v => 0 ≤ v ∧ v ≤ 1
  | none => True

instance instDecConfWithinUnit (line : String) : Decidable (confWithinUnit line) := by
  unfold confWithinUnit
  cases pyFloat (pyStrip (pyReplace line "CONFIDENCE:" "")) with
  | none => exact isTrue trivial
  | some v => exact inferInstance

/-- Modelled from the spec: the arithmetic mean of the rewards over exactly
the outcome-annotated decisions shown by the formatted view (the at most
three displayed), as claimed for the average-reward line. -/
def specMeanShownReward (m : AutobiographicalMemory) : Rat :=
  (((decisionsWithOutcomes m).take 3).map (fun d => d.reward.getD 0)).sum /
    ((((decisionsWithOutcomes m).take 3)).length : Rat)

/-! ### Concrete scenario inputs -/

/-- The reply text of the spec's first parser example. -/
def c1_input : String := "RECOMMENDATION: Hold\nCONFIDENCE: 0.9\nREASONING: market flat"

/-- A fact with the given statement and confidence (provenance, category,
timestamp and id fixed), for the eviction scenario. -/
def mkFact (s : String) (c : Rat) : Fact := ⟨s, "src", c, "general", 0, s⟩

/-- The five facts of the Long-Term eviction scenario, with confidences
[0.9, 0.2, 0.5, 0.99, 0.1] in insertion order. -/
def c2_inserted : List Fact :=
  [mkFact "f1" (9/10), mkFact "f2" (2/10), mkFact "f3" (5/10),
   mkFact "f4" (99/100), mkFact "f5" (1/10)]

/-- A capacity-3 Long-Term store after inserting the five scenario facts. -/
def c2_store : LongTermMemory := c2_inserted.foldl LongTermMemory.add_fact ⟨[], 3⟩

/-- An outcome-annotated decision with the given timestamp and reward. -/
def mkDecided (ts : Nat) (r : Rat) : Decision :=
  ⟨"Long", 1/2, "r", ts, Nat.repr ts, some "up", some r⟩

/-- An autobiographical memory holding four outcome-annotated decisions
whose three most recent rewards are 1 and whose oldest reward is 0, so the
mean over all four (0.75) differs from the mean over the three shown (1). -/
def c7_memory : AutobiographicalMemory :=
  ⟨[mkDecided 1 0, mkDecided 2 1, mkDecided 3 1, mkDecided 4 1], 20⟩

/-- A feedback reply carrying a `NEW FACT:` line. -/
def c5_reply : String := "NEW FACT: alpha\nCATEGORY: market\nCONFIDENCE: 0.8"

/-- A reply whose valid `RECOMMENDATION:` line is followed by an invalid
one and then by another valid one. -/
def c10_input : String :=
  "RECOMMENDATION: Long\nCONFIDENCE: 0.9\nRECOMMENDATION: Hold\nRECOMMENDATION: Short"

/-! ### Theorems -/

section MainTheorems

attribute [local semireducible] Rat.add Rat.mul Rat.inv Rat.sub

/-- C1, counterexample: on the spec's example input the parsing section of
`make_recommendation` returns recommendation "Short", not the claimed
"Long" — the `> 0.5` fallback fires at the moment the invalid
`RECOMMENDATION: Hold` line is scanned, when confidence is still the
default 0.5, and the end-of-scan fallback never runs because a
recommendation is already set. -/
theorem c1_counterexample :
    (parse_decision c1_input).recommendation = "Short" ∧
      (parse_decision c1_input).recommendation ≠ "Long" := by
  decide

/-- C1, amended: on input `"RECOMMENDATION: Hold\nCONFIDENCE: 0.9\n`
`REASONING: market flat"` the parsing section returns recommendation
"Short" (the `> 0.5` fallback applied at the moment the invalid line is
scanned, over the then-current default confidence 0.5), confidence 0.9 and
reasoning "market flat". -/
theorem c1_amended :
    parse_decision c1_input = ⟨"Short", 9/10, "market flat"⟩ := by
  decide

/-- C2, counterexample: after inserting the five scenario facts into a
capacity-3 store the survivors are NOT in their original relative
insertion order (f1 before f3): eviction leaves the list sorted ascending
by confidence, f3 before f1. -/
theorem c2_counterexample :
    c2_store.facts ≠ [mkFact "f1" (9/10), mkFact "f3" (5/10), mkFact "f4" (99/100)] ∧
      c2_store.facts = [mkFact "f3" (5/10), mkFact "f1" (9/10), mkFact "f4" (99/100)] := by
  decide

/-- C2, amended: inserting facts with confidences [0.9, 0.2, 0.5, 0.99,
0.1] into a capacity-3 Long-Term store leaves exactly the three
highest-confidence facts (0.5, 0.9, 0.99), stored in ascending confidence
order — `add_fact` sorts the stored list during eviction — rather than in
original insertion order. -/
theorem c2_amended :
    c2_store.facts = [mkFact "f3" (5/10), mkFact "f1" (9/10), mkFact "f4" (99/100)] ∧
      c2_store.facts.length = 3 := by
  decide

/-- C3, counterexample: a reply whose `CONFIDENCE:` line carries the
numeric value 2.0 yields confidence 2, outside `[0, 1]` — the parser never
clamps a successfully parsed float. -/
theorem c3_counterexample :
    (parse_decision "CONFIDENCE: 2.0").confidence = 2 ∧
      ¬ (parse_decision "CONFIDENCE: 2.0").confidence ≤ 1 := by
  decide

/-- C8: for every agent state and query, the built prompt is exactly the
system instruction, the seven stores' formatted views in the fixed order
Sensory, Short-Term, Procedural, Long-Term, Autobiographical, Working,
Prospective, and the trailing query section, joined by blank-line
separators, with no truncation. -/
theorem c8_prompt_order (a : LLMAgent) (q : String) :
    build_full_prompt a q =
      system_prompt ++ "\n\n" ++
        a.sensory_memory.get_formatted ++ "\n\n" ++
        a.short_term_memory.get_formatted ++ "\n\n" ++
        a.procedural_memory.get_formatted ++ "\n\n" ++
        a.long_term_memory.get_formatted ++ "\n\n" ++
        a.autobiographical_memory.get_formatted ++ "\n\n" ++
        a.working_memory.get_formatted ++ "\n\n" ++
        a.prospective_memory.get_formatted ++ "\n\n" ++
        ("\n## NEW QUERY\n" ++ q ++ "\n\n## RESPONSE\nLet me think through this step by step:") := by
  simp only [build_full_prompt, pyJoin, querySection, String.append_assoc]

/-- C9: for every one of the seven stores and every store state, the
formatted view is a pure read — as a state transformer it returns the
store unchanged — and two calls on equal contents return the same text:
for the six stores with capacity knobs the text does not depend on the
capacity field(s) at all, and for Procedural memory (whose only field is
its contents) equal contents give equal text. -/
theorem c9_formatted_pure :
    (∀ m : SensoryMemory, (SensoryMemory.get_formattedM m).2 = m) ∧
    (∀ m : ShortTermMemory, (ShortTermMemory.get_formattedM m).2 = m) ∧
    (∀ m : ProceduralMemory, (ProceduralMemory.get_formattedM m).2 = m) ∧
    (∀ m : LongTermMemory, (LongTermMemory.get_formattedM m).2 = m) ∧
    (∀ m : AutobiographicalMemory, (AutobiographicalMemory.get_formattedM m).2 = m) ∧
    (∀ m : WorkingMemory, (WorkingMemory.get_formattedM m).2 = m) ∧
    (∀ m : ProspectiveMemory, (ProspectiveMemory.get_formattedM m).2 = m) ∧
    (∀ (ns : List NewsItem) (ps : List PriceData) (c c' : Nat),
      (SensoryMemory.get_formattedM ⟨ns, ps, c⟩).1 =
        (SensoryMemory.get_formattedM ⟨ns, ps, c'⟩).1) ∧
    (∀ (ns : List NewsItem) (ps : List PriceData) (cn cn' cp cp' : Nat),
      (ShortTermMemory.get_formattedM ⟨ns, ps, cn, cp⟩).1 =
        (ShortTermMemory.get_formattedM ⟨ns, ps, cn', cp'⟩).1) ∧
    (∀ m m' : ProceduralMemory, m.procedures = m'.procedures →
      (ProceduralMemory.get_formattedM m).1 = (ProceduralMemory.get_formattedM m').1) ∧
    (∀ (fs : List Fact) (c c' : Nat),
      (LongTermMemory.get_formattedM ⟨fs, c⟩).1 = (LongTermMemory.get_formattedM ⟨fs, c'⟩).1) ∧
    (∀ (ds : List Decision) (c c' : Nat),
      (AutobiographicalMemory.get_formattedM ⟨ds, c⟩).1 =
        (AutobiographicalMemory.get_formattedM ⟨ds, c'⟩).1) ∧
    (∀ (ts : List Thought) (c c' : Nat),
      (WorkingMemory.get_formattedM ⟨ts, c⟩).1 = (WorkingMemory.get_formattedM ⟨ts, c'⟩).1) ∧
    (∀ (cs : List Consideration) (c c' : Nat),
      (ProspectiveMemory.get_formattedM ⟨cs, c⟩).1 =
        (ProspectiveMemory.get_formattedM ⟨cs, c'⟩).1) := by
  refine ⟨fun _ => rfl, fun _ => rfl, fun _ => rfl, fun _ => rfl, fun _ => rfl, fun _ => rfl,
    fun _ => rfl, fun _ _ _ _ => rfl, fun _ _ _ _ _ _ => rfl, ?_, fun _ _ _ => rfl,
    fun _ _ _ => rfl, fun _ _ _ => rfl, fun _ _ _ => rfl⟩
  intro m m' h
  cases m
  cases m'
  cases h
  rfl

/-- C9, witness: the purity and equal-contents conjuncts applied at the
freshly constructed stores, discharging the Procedural equal-contents
hypothesis at `ProceduralMemory.init`. -/
theorem c9_witness :
    (SensoryMemory.get_formattedM SensoryMemory.init).2 = SensoryMemory.init ∧
    (ProceduralMemory.get_formattedM ProceduralMemory.init).1 =
      (ProceduralMemory.get_formattedM ProceduralMemory.init).1 :=
  ⟨c9_formatted_pure.1 SensoryMemory.init,
    c9_formatted_pure.2.2.2.2.2.2.2.2.2.1 ProceduralMemory.init ProceduralMemory.init rfl⟩

theorem insertSorted_length (le : α → α → Bool) (x : α) (l : List α) :
    (insertSorted le x l).length = l.length + 1 := by
  induction l with
  | nil => rfl
  | cons y t ih => by_cases h : le y x = true <;> simp [insertSorted, h, ih]

theorem pySortBy_foldl_length (le : α → α → Bool) (l acc : List α) :
    (l.foldl (fun acc x => insertSorted le x acc) acc).length = acc.length + l.length := by
  induction l generalizing acc with
  | nil => rfl
  | cons x t ih => simp [List.foldl_cons, ih, insertSorted_length]; omega

theorem pySortBy_length (le : α → α → Bool) (l : List α) :
    (pySortBy le l).length = l.length := by
  simp [pySortBy, pySortBy_foldl_length]

theorem lastN_length_le (n : Nat) (l : List α) : (lastN n l).length ≤ n := by
  simp only [lastN, List.length_drop]
  omega

theorem fifoAdd_lastN (cap : Nat) (l : List α) (x : α) :
    fifoAdd cap (lastN cap l) x = lastN cap (l ++ [x]) := by
  simp only [fifoAdd, lastN]
  by_cases h : l.length + 1 ≤ cap
  · have h0 : l.length - cap = 0 := by omega
    have h2 : ¬ cap < (l.drop (l.length - cap) ++ [x]).length := by
      simp [List.length_append, List.length_drop]; omega
    rw [if_neg h2, h0, List.drop_zero]
    have h1 : (l ++ [x]).length - cap = 0 := by simp [List.length_append]; omega
    rw [h1, List.drop_zero]
  · by_cases hc : cap = 0
    · subst hc
      have hl : l.drop (l.length - 0) = [] := List.drop_eq_nil_of_le (by omega)
      have hr : (l ++ [x]).drop ((l ++ [x]).length - 0) = [] :=
        List.drop_eq_nil_of_le (by omega)
      rw [hl]
      have h2 : (0 : Nat) < (([] : List α) ++ [x]).length := by simp
      rw [if_pos h2, hr]
      rfl
    have hcap : 1 ≤ cap := by omega
    have hle : cap ≤ l.length := by omega
    have hd : (l.drop (l.length - cap)).length = cap := by
      simp only [List.length_drop]; omega
    have h2 : cap < (l.drop (l.length - cap) ++ [x]).length := by
      simp [List.length_append, hd]
    rw [if_pos h2]
    rw [List.drop_append_eq_append_drop, List.drop_drop, List.drop_append_eq_append_drop]
    have e2 : 1 - (l.drop (l.length - cap)).length = 0 := by omega
    have e3 : (l ++ [x]).length - cap - l.length = 0 := by
      simp only [List.length_append, List.length_cons, List.length_nil]; omega
    have e4 : (l ++ [x]).length - cap = l.length - cap + 1 := by
      simp only [List.length_append, List.length_cons, List.length_nil]; omega
    rw [e2, e3, e4]

theorem foldl_fifoAdd_lastN (cap : Nat) (ws : List α) :
    ∀ hist : List α,
      ws.foldl (fifoAdd cap) (lastN cap hist) = lastN cap (hist ++ ws) := by
  induction ws with
  | nil => intro hist; simp
  | cons x t ih =>
    intro hist
    rw [List.foldl_cons, fifoAdd_lastN, ih (hist ++ [x]), List.append_assoc]
    rfl

theorem foldl_fifoAdd_nil (cap : Nat) (ws : List α) :
    ws.foldl (fifoAdd cap) [] = lastN cap ws := by
  have h := foldl_fifoAdd_lastN cap ws []
  simpa [lastN] using h

theorem sensory_fold_news (ws : List NewsItem) (m : SensoryMemory) :
    ws.foldl SensoryMemory.add_news m =
      { m with news_items := ws.foldl (fifoAdd m.max_size) m.news_items } := by
  induction ws generalizing m with
  | nil => rfl
  | cons x t ih => rw [List.foldl_cons, List.foldl_cons, ih]; rfl

theorem sensory_fold_price (ws : List PriceData) (m : SensoryMemory) :
    ws.foldl SensoryMemory.add_price m =
      { m with price_data := ws.foldl (fifoAdd m.max_size) m.price_data } := by
  induction ws generalizing m with
  | nil => rfl
  | cons x t ih => rw [List.foldl_cons, List.foldl_cons, ih]; rfl

theorem short_term_fold_news (ws : List NewsItem) (m : ShortTermMemory) :
    ws.foldl ShortTermMemory.add_news m =
      { m with news_items := ws.foldl (fifoAdd m.max_news) m.news_items } := by
  induction ws generalizing m with
  | nil => rfl
  | cons x t ih => rw [List.foldl_cons, List.foldl_cons, ih]; rfl

theorem short_term_fold_price (ws : List PriceData) (m : ShortTermMemory) :
    ws.foldl ShortTermMemory.add_price m =
      { m with price_data := ws.foldl (fifoAdd m.max_prices) m.price_data } := by
  induction ws generalizing m with
  | nil => rfl
  | cons x t ih => rw [List.foldl_cons, List.foldl_cons, ih]; rfl

theorem autobio_fold_decisions (ws : List Decision) (m : AutobiographicalMemory) :
    ws.foldl AutobiographicalMemory.add_decision m =
      { m with decisions := ws.foldl (fifoAdd m.max_decisions) m.decisions } := by
  induction ws generalizing m with
  | nil => rfl
  | cons x t ih => rw [List.foldl_cons, List.foldl_cons, ih]; rfl

theorem working_fold_thoughts (ws : List Thought) (m : WorkingMemory) :
    ws.foldl (fun m t => m.add_thought t.content t.timestamp t.thought_id) m =
      { m with thoughts := ws.foldl (fifoAdd m.max_thoughts) m.thoughts } := by
  induction ws generalizing m with
  | nil => rfl
  | cons x t ih => rw [List.foldl_cons, List.foldl_cons, ih]; rfl

theorem prospective_fold_considerations (ws : List Consideration) (m : ProspectiveMemory) :
    ws.foldl (fun m c => m.add_consideration c.text c.timestamp c.consideration_id) m =
      { m with considerations := ws.foldl (fifoAdd m.max_considerations) m.considerations } := by
  induction ws generalizing m with
  | nil => rfl
  | cons x t ih => rw [List.foldl_cons, List.foldl_cons, ih]; rfl

theorem add_fact_max (m : LongTermMemory) (f : Fact) :
    (m.add_fact f).max_facts = m.max_facts := by
  simp only [LongTermMemory.add_fact]
  split <;> rfl

theorem add_fact_length_le (m : LongTermMemory) (f : Fact)
    (h : m.facts.length ≤ m.max_facts) :
    (m.add_fact f).facts.length ≤ m.max_facts := by
  simp only [LongTermMemory.add_fact]
  split
  · next hlt =>
    simp only [List.length_drop, pySortBy_length, List.length_append, List.length_cons,
      List.length_nil] at hlt ⊢
    omega
  · next hge =>
    simp only [List.length_append, List.length_cons] at hge ⊢
    omega

theorem ltm_fold_length (fs : List Fact) :
    ∀ m : LongTermMemory, m.facts.length ≤ m.max_facts →
      (fs.foldl LongTermMemory.add_fact m).facts.length ≤
        (fs.foldl LongTermMemory.add_fact m).max_facts := by
  induction fs with
  | nil => intro m h; exact h
  | cons f t ih =>
    intro m h
    rw [List.foldl_cons]
    refine ih (m.add_fact f) ?_
    rw [add_fact_max]
    exact add_fact_length_le m f h

/-- C4: starting from each freshly constructed store, after any sequence of
`add` calls the stored list holds at most the configured capacity, and for
the FIFO stores (Sensory news/prices, Short-Term news/prices,
Autobiographical, Working, Prospective) the survivors are exactly the most
recently inserted records in insertion order — `lastN cap` of the inserted
sequence; the Long-Term store also respects its capacity bound. -/
theorem c4_capacity_and_fifo :
    (∀ ws : List NewsItem,
       (ws.foldl SensoryMemory.add_news SensoryMemory.init).news_items = lastN 5 ws ∧
       (ws.foldl SensoryMemory.add_news SensoryMemory.init).news_items.length ≤ 5) ∧
    (∀ ws : List PriceData,
       (ws.foldl SensoryMemory.add_price SensoryMemory.init).price_data = lastN 5 ws ∧
       (ws.foldl SensoryMemory.add_price SensoryMemory.init).price_data.length ≤ 5) ∧
    (∀ ws : List NewsItem,
       (ws.foldl ShortTermMemory.add_news ShortTermMemory.init).news_items = lastN 15 ws ∧
       (ws.foldl ShortTermMemory.add_news ShortTermMemory.init).news_items.length ≤ 15) ∧
    (∀ ws : List PriceData,
       (ws.foldl ShortTermMemory.add_price ShortTermMemory.init).price_data = lastN 30 ws ∧
       (ws.foldl ShortTermMemory.add_price ShortTermMemory.init).price_data.length ≤ 30) ∧
    (∀ ws : List Decision,
       (ws.foldl AutobiographicalMemory.add_decision AutobiographicalMemory.init).decisions =
         lastN 20 ws ∧
       (ws.foldl AutobiographicalMemory.add_decision
         AutobiographicalMemory.init).decisions.length ≤ 20) ∧
    (∀ ws : List Thought,
       (ws.foldl (fun m t => m.add_thought t.content t.timestamp t.thought_id)
          WorkingMemory.init).thoughts = lastN 10 ws ∧
       (ws.foldl (fun m t => m.add_thought t.content t.timestamp t.thought_id)
          WorkingMemory.init).thoughts.length ≤ 10) ∧
    (∀ ws : List Consideration,
       (ws.foldl (fun m c => m.add_consideration c.text c.timestamp c.consideration_id)
          ProspectiveMemory.init).considerations = lastN 10 ws ∧
       (ws.foldl (fun m c => m.add_consideration c.text c.timestamp c.consideration_id)
          ProspectiveMemory.init).considerations.length ≤ 10) ∧
    (∀ ws : List Fact,
       (ws.foldl LongTermMemory.add_fact LongTermMemory.init).facts.length ≤ 30) := by
  refine ⟨fun ws => ?_, fun ws => ?_, fun ws => ?_, fun ws => ?_, fun ws => ?_,
    fun ws => ?_, fun ws => ?_, fun ws => ?_⟩
  · have hn : (ws.foldl SensoryMemory.add_news SensoryMemory.init).news_items =
        lastN 5 ws := by
      rw [sensory_fold_news]
      exact foldl_fifoAdd_nil 5 ws
    exact ⟨hn, by rw [hn]; exact lastN_length_le 5 ws⟩
  · have hn : (ws.foldl SensoryMemory.add_price SensoryMemory.init).price_data =
        lastN 5 ws := by
      rw [sensory_fold_price]
      exact foldl_fifoAdd_nil 5 ws
    exact ⟨hn, by rw [hn]; exact lastN_length_le 5 ws⟩
  · have hn : (ws.foldl ShortTermMemory.add_news ShortTermMemory.init).news_items =
        lastN 15 ws := by
      rw [short_term_fold_news]
      exact foldl_fifoAdd_nil 15 ws
    exact ⟨hn, by rw [hn]; exact lastN_length_le 15 ws⟩
  · have hn : (ws.foldl ShortTermMemory.add_price ShortTermMemory.init).price_data =
        lastN 30 ws := by
      rw [short_term_fold_price]
      exact foldl_fifoAdd_nil 30 ws
    exact ⟨hn, by rw [hn]; exact lastN_length_le 30 ws⟩
  · have hn : (ws.foldl AutobiographicalMemory.add_decision
        AutobiographicalMemory.init).decisions = lastN 20 ws := by
      rw [autobio_fold_decisions]
      exact foldl_fifoAdd_nil 20 ws
    exact ⟨hn, by rw [hn]; exact lastN_length_le 20 ws⟩
  · have hn : (ws.foldl (fun m t => m.add_thought t.content t.timestamp t.thought_id)
        WorkingMemory.init).thoughts = lastN 10 ws := by
      rw [working_fold_thoughts]
      exact foldl_fifoAdd_nil 10 ws
    exact ⟨hn, by rw [hn]; exact lastN_length_le 10 ws⟩
  · have hn : (ws.foldl (fun m c => m.add_consideration c.text c.timestamp c.consideration_id)
        ProspectiveMemory.init).considerations = lastN 10 ws := by
      rw [prospective_fold_considerations]
      exact foldl_fifoAdd_nil 10 ws
    exact ⟨hn, by rw [hn]; exact lastN_length_le 10 ws⟩
  · have h := ltm_fold_length ws LongTermMemory.init (by simp [LongTermMemory.init])
    have hm : ∀ (l : List Fact) (m : LongTermMemory),
        (l.foldl LongTermMemory.add_fact m).max_facts = m.max_facts := by
      intro l
      induction l with
      | nil => intro m; rfl
      | cons f t ih => intro m; rw [List.foldl_cons, ih, add_fact_max]
    rw [hm ws LongTermMemory.init] at h
    exact h

theorem parse_decision_step_rec (st : DecisionFields) (line : String) :
    (parse_decision_step st line).recommendation = st.recommendation ∨
      (parse_decision_step st line).recommendation = "Long" ∨
      (parse_decision_step st line).recommendation = "Short" := by
  unfold parse_decision_step
  by_cases h1 : pyStartsWith line "RECOMMENDATION:" = true
  · rw [if_pos h1]
    dsimp only
    by_cases h2 : pyStrip (pyReplace line "RECOMMENDATION:" "") = "Long" ∨
        pyStrip (pyReplace line "RECOMMENDATION:" "") = "Short"
    · rw [if_pos h2]
      rcases h2 with h | h
      · exact Or.inr (Or.inl h)
      · exact Or.inr (Or.inr h)
    · rw [if_neg h2]
      by_cases h3 : (1 : Rat)/2 < st.confidence
      · rw [if_pos h3]
        exact Or.inr (Or.inl rfl)
      · rw [if_neg h3]
        exact Or.inr (Or.inr rfl)
  · rw [if_neg h1]
    by_cases h2 : pyStartsWith line "CONFIDENCE:" = true
    · rw [if_pos h2]
      split <;> exact Or.inl rfl
    · rw [if_neg h2]
      by_cases h3 : pyStartsWith line "REASONING:" = true
      · rw [if_pos h3]
        exact Or.inl rfl
      · rw [if_neg h3]
        exact Or.inl rfl

theorem parse_decision_step_conf (st : DecisionFields) (line : String) :
    (parse_decision_step st line).confidence = st.confidence ∨
      (parse_decision_step st line).confidence = 7/10 ∨
      (pyStartsWith line "CONFIDENCE:" = true ∧
        pyFloat (pyStrip (pyReplace line "CONFIDENCE:" "")) =
          some (parse_decision_step st line).confidence) := by
  unfold parse_decision_step
  by_cases h1 : pyStartsWith line "RECOMMENDATION:" = true
  · rw [if_pos h1]
    dsimp only
    by_cases h2 : pyStrip (pyReplace line "RECOMMENDATION:" "") = "Long" ∨
        pyStrip (pyReplace line "RECOMMENDATION:" "") = "Short"
    · rw [if_pos h2]
      exact Or.inl rfl
    · rw [if_neg h2]
      exact Or.inl rfl
  · rw [if_neg h1]
    by_cases h2 : pyStartsWith line "CONFIDENCE:" = true
    · rw [if_pos h2]
      split
      · next v heq => exact Or.inr (Or.inr ⟨h2, heq⟩)
      · next heq => exact Or.inr (Or.inl rfl)
    · rw [if_neg h2]
      by_cases h3 : pyStartsWith line "REASONING:" = true
      · rw [if_pos h3]
        exact Or.inl rfl
      · rw [if_neg h3]
        exact Or.inl rfl

theorem foldl_parse_decision_rec (lines : List String) :
    ∀ st : DecisionFields,
      (st.recommendation = "" ∨ st.recommendation = "Long" ∨ st.recommendation = "Short") →
      ((lines.foldl parse_decision_step st).recommendation = "" ∨
        (lines.foldl parse_decision_step st).recommendation = "Long" ∨
        (lines.foldl parse_decision_step st).recommendation = "Short") := by
  induction lines with
  | nil => intro st h; exact h
  | cons l t ih =>
    intro st h
    rw [List.foldl_cons]
    refine ih _ ?_
    rcases parse_decision_step_rec st l with he | he | he
    · rw [he]; exact h
    · exact Or.inr (Or.inl he)
    · exact Or.inr (Or.inr he)

theorem foldl_parse_decision_conf (lines : List String) :
    ∀ st : DecisionFields, 0 ≤ st.confidence → st.confidence ≤ 1 →
      (∀ line ∈ lines, pyStartsWith line "CONFIDENCE:" = true → confWithinUnit line) →
      0 ≤ (lines.foldl parse_decision_step st).confidence ∧
        (lines.foldl parse_decision_step st).confidence ≤ 1 := by
  induction lines with
  | nil => intro st h0 h1 _; exact ⟨h0, h1⟩
  | cons l t ih =>
    intro st h0 h1 h
    rw [List.foldl_cons]
    have hstep := parse_decision_step_conf st l
    have hb : 0 ≤ (parse_decision_step st l).confidence ∧
        (parse_decision_step st l).confidence ≤ 1 := by
      rcases hstep with he | he | ⟨hcl, heq⟩
      · rw [he]; exact ⟨h0, h1⟩
      · rw [he]; norm_num
      · have hcw := h l (List.mem_cons_self l t) hcl
        unfold confWithinUnit at hcw
        simp only [heq] at hcw
        exact hcw
    exact ih _ hb.1 hb.2 (fun x hx hs => h x (List.mem_cons_of_mem l hx) hs)

/-- C3, amended: for every input text the decision parse is total by
construction and always yields a recommendation that is literally "Long" or
"Short"; the returned confidence lies in `[0, 1]` provided every
`CONFIDENCE:` line whose payload parses as a float parses to a value in
`[0, 1]` (which covers the empty string, texts with no recognized prefixes,
and non-numeric confidence payloads like "high") — but not in general, see
the counterexample. -/
theorem c3_amended (text : String) :
    ((parse_decision text).recommendation = "Long" ∨
      (parse_decision text).recommendation = "Short") ∧
    ((∀ line ∈ pySplitLines text, pyStartsWith line "CONFIDENCE:" = true →
        confWithinUnit line) →
      0 ≤ (parse_decision text).confidence ∧ (parse_decision text).confidence ≤ 1) := by
  constructor
  · simp only [parse_decision]
    have h := foldl_parse_decision_rec (pySplitLines text) ⟨"", 1/2, ""⟩ (Or.inl rfl)
    rcases h with h | h | h
    · rw [if_pos h]
      by_cases hc : (1 : Rat)/2 <
          ((pySplitLines text).foldl parse_decision_step ⟨"", 1/2, ""⟩).confidence
      · rw [if_pos hc]
        exact Or.inl rfl
      · rw [if_neg hc]
        exact Or.inr rfl
    · rw [if_neg (h ▸ by decide : ¬ ((pySplitLines text).foldl parse_decision_step
        ⟨"", 1/2, ""⟩).recommendation = "")]
      exact Or.inl h
    · rw [if_neg (h ▸ by decide : ¬ ((pySplitLines text).foldl parse_decision_step
        ⟨"", 1/2, ""⟩).recommendation = "")]
      exact Or.inr h
  · intro h
    have hc := foldl_parse_decision_conf (pySplitLines text) ⟨"", 1/2, ""⟩
      (by norm_num) (by norm_num) h
    simp only [parse_decision]
    split_ifs <;> exact hc

/-- C3, witness at the non-numeric input "CONFIDENCE: high". -/
theorem c3_witness :
    ((parse_decision "CONFIDENCE: high").recommendation = "Long" ∨
      (parse_decision "CONFIDENCE: high").recommendation = "Short") ∧
      0 ≤ (parse_decision "CONFIDENCE: high").confidence ∧
      (parse_decision "CONFIDENCE: high").confidence ≤ 1 := by
  have h := c3_amended "CONFIDENCE: high"
  exact ⟨h.1, h.2 (by decide)⟩

theorem parse_fact_step_fact_text (st : FactFields) (line : String) :
    (parse_fact_step st line).fact_text = st.fact_text ∨
      pyStartsWith line "NEW FACT:" = true := by
  unfold parse_fact_step
  by_cases h1 : pyStartsWith line "NEW FACT:" = true
  · exact Or.inr h1
  · rw [if_neg h1]
    by_cases h2 : pyStartsWith line "CATEGORY:" = true
    · rw [if_pos h2]
      exact Or.inl rfl
    · rw [if_neg h2]
      by_cases h3 : pyStartsWith line "CONFIDENCE:" = true
      · rw [if_pos h3]
        split <;> exact Or.inl rfl
      · rw [if_neg h3]
        exact Or.inl rfl

theorem foldl_parse_fact_no_newfact (lines : List String) :
    ∀ st : FactFields, (∀ line ∈ lines, ¬ pyStartsWith line "NEW FACT:" = true) →
      (lines.foldl parse_fact_step st).fact_text = st.fact_text := by
  induction lines with
  | nil => intro st _; rfl
  | cons l t ih =>
    intro st h
    rw [List.foldl_cons]
    rw [ih _ (fun x hx => h x (List.mem_cons_of_mem l hx))]
    rcases parse_fact_step_fact_text st l with he | he
    · exact he
    · exact absurd he (h l (List.mem_cons_self l t))

/-- C6: when the feedback reply contains no `NEW FACT:` line, the parsed
fact statement is empty and the feedback cycle stores nothing: Long-Term
Memory and Prospective Memory are unchanged. -/
theorem c6_no_fact_no_store (a : LLMAgent) (did outc : String) (rew : Rat) (reply : String)
    (factTs : Nat) (factId : String) (consTs : Nat) (consId : String)
    (h : ∀ line ∈ pySplitLines reply, ¬ pyStartsWith line "NEW FACT:" = true) :
    (parse_fact reply).fact_text = "" ∧
    (process_feedback a did outc rew reply factTs factId consTs consId).1.long_term_memory =
      a.long_term_memory ∧
    (process_feedback a did outc rew reply factTs factId consTs consId).1.prospective_memory =
      a.prospective_memory := by
  have hempty : (parse_fact reply).fact_text = "" := by
    unfold parse_fact
    exact foldl_parse_fact_no_newfact (pySplitLines reply) ⟨"", "general", 1/2⟩ h
  refine ⟨hempty, ?_⟩
  simp only [process_feedback]
  rw [if_neg (by simp [hempty])]
  exact ⟨rfl, rfl⟩

/-- C6, witness: a reply with no `NEW FACT:` line leaves Long-Term and
Prospective memory of the fresh agent unchanged. -/
theorem c6_witness :
    (parse_fact "no fact in this reply").fact_text = "" ∧
    (process_feedback LLMAgent.init "d1" "up" 1 "no fact in this reply" 0 "f" 0 "c").1.long_term_memory =
      LLMAgent.init.long_term_memory ∧
    (process_feedback LLMAgent.init "d1" "up" 1 "no fact in this reply" 0 "f" 0 "c").1.prospective_memory =
      LLMAgent.init.prospective_memory :=
  c6_no_fact_no_store LLMAgent.init "d1" "up" 1 "no fact in this reply" 0 "f" 0 "c" (by decide)

theorem update_outcome_list_not_found (did outc : String) (rew : Rat) :
    ∀ l : List Decision, (∀ d ∈ l, d.decision_id ≠ did) →
      update_outcome_list did outc rew l = l := by
  intro l
  induction l with
  | nil => intro _; rfl
  | cons d t ih =>
    intro h
    unfold update_outcome_list
    rw [if_neg (h d (List.mem_cons_self d t))]
    rw [ih (fun x hx => h x (List.mem_cons_of_mem d hx))]

/-- C5, amended: a feedback call referencing a decision id absent from
Autobiographical Memory modifies no Decision — Autobiographical Memory (and
the sensory, short-term, procedural and working stores) are unchanged — and
the whole agent state is unchanged exactly when the reply yields an empty
fact statement; otherwise Long-Term and Prospective Memory still gain the
distilled fact and consideration. -/
theorem c5_amended (a : LLMAgent) (did outc : String) (rew : Rat) (reply : String)
    (factTs : Nat) (factId : String) (consTs : Nat) (consId : String)
    (h : ∀ d ∈ a.autobiographical_memory.decisions, d.decision_id ≠ did) :
    (process_feedback a did outc rew reply factTs factId consTs consId).1.autobiographical_memory =
      a.autobiographical_memory ∧
    (process_feedback a did outc rew reply factTs factId consTs consId).1.sensory_memory =
      a.sensory_memory ∧
    (process_feedback a did outc rew reply factTs factId consTs consId).1.short_term_memory =
      a.short_term_memory ∧
    (process_feedback a did outc rew reply factTs factId consTs consId).1.procedural_memory =
      a.procedural_memory ∧
    (process_feedback a did outc rew reply factTs factId consTs consId).1.working_memory =
      a.working_memory ∧
    ((parse_fact reply).fact_text = "" →
      (process_feedback a did outc rew reply factTs factId consTs consId).1 = a) := by
  have hupd : a.autobiographical_memory.update_outcome did outc rew =
      a.autobiographical_memory := by
    unfold AutobiographicalMemory.update_outcome
    rw [update_outcome_list_not_found did outc rew _ h]
  simp only [process_feedback]
  split_ifs with hf
  · exact ⟨by simp [hupd], rfl, rfl, rfl, rfl, fun he => absurd he hf⟩
  · refine ⟨by simp [hupd], rfl, rfl, rfl, rfl, fun _ => ?_⟩
    simp [hupd]

/-- C5, witness: feedback on the unknown id "missing" with a fact-free
reply leaves the fresh agent completely unchanged. -/
theorem c5_witness :
    (process_feedback LLMAgent.init "missing" "up" 1 "hello" 0 "f" 0 "c").1.autobiographical_memory =
      LLMAgent.init.autobiographical_memory ∧
    (process_feedback LLMAgent.init "missing" "up" 1 "hello" 0 "f" 0 "c").1 = LLMAgent.init := by
  have h := c5_amended LLMAgent.init "missing" "up" 1 "hello" 0 "f" 0 "c" (by decide)
  exact ⟨h.1, h.2.2.2.2.2 (by decide)⟩

/-- C5, counterexample: the same unknown-id feedback call is NOT a no-op on
every store — with a reply carrying a `NEW FACT:` line, Long-Term Memory
gains a fact (and the agent state changes), even though no decision with
that id exists. -/
theorem c5_counterexample :
    (∀ d ∈ LLMAgent.init.autobiographical_memory.decisions, d.decision_id ≠ "missing") ∧
    LLMAgent.init.long_term_memory.facts.length = 0 ∧
    (process_feedback LLMAgent.init "missing" "up" 1 c5_reply 0 "f" 0 "c").1.long_term_memory.facts.length = 1 ∧
    (process_feedback LLMAgent.init "missing" "up" 1 c5_reply 0 "f" 0 "c").1 ≠ LLMAgent.init := by
  decide

theorem insertSorted_perm (le : α → α → Bool) (x : α) (l : List α) :
    List.Perm (insertSorted le x l) (x :: l) := by
  induction l with
  | nil => exact List.Perm.refl _
  | cons y t ih =>
    unfold insertSorted
    by_cases h : le y x = true
    · rw [if_pos h]
      exact (List.Perm.cons y ih).trans (List.Perm.swap x y t)
    · rw [if_neg h]

theorem pySortBy_foldl_perm (le : α → α → Bool) (l : List α) :
    ∀ acc : List α,
      List.Perm (l.foldl (fun acc x => insertSorted le x acc) acc) (acc ++ l) := by
  induction l with
  | nil => intro acc; simp
  | cons x t ih =>
    intro acc
    rw [List.foldl_cons]
    refine (ih (insertSorted le x acc)).trans ?_
    refine (List.Perm.append_right t (insertSorted_perm le x acc)).trans ?_
    exact List.perm_middle.symm

theorem pySortBy_perm (le : α → α → Bool) (l : List α) :
    List.Perm (pySortBy le l) l := by
  have h := pySortBy_foldl_perm le l []
  simpa [pySortBy] using h

theorem decisionsWithOutcomes_perm (m : AutobiographicalMemory) :
    List.Perm (decisionsWithOutcomes m) (m.decisions.filter (fun d => d.outcome.isSome)) :=
  pySortBy_perm _ _

/-- C7, counterexample: with four outcome-annotated decisions of rewards
0, 1, 1, 1 (oldest first), the emitted average-reward line shows 0.75 — the
mean over ALL four annotated decisions — while the mean over the three
decisions actually displayed is 1. -/
theorem c7_counterexample :
    3 ≤ (decisionsWithOutcomes c7_memory).length ∧
    autobioPerf c7_memory = "Overall performance: Average reward 0.75 across 4 decisions.\n" ∧
    autobioAvgReward c7_memory = 3/4 ∧
    specMeanShownReward c7_memory = 1 ∧
    autobioAvgReward c7_memory ≠ specMeanShownReward c7_memory := by
  decide

/-- C7, amended: the formatted view decomposes into header, recent-block
and performance line; no average-reward line is emitted when fewer than 3
decisions carry an outcome, and with at least 3 the emitted average is the
arithmetic mean over ALL outcome-annotated decisions (unset rewards counted
as 0), not merely over the at most three displayed. -/
theorem c7_amended (m : AutobiographicalMemory) :
    AutobiographicalMemory.get_formatted m =
      "## AUTOBIOGRAPHICAL MEMORY (PAST DECISIONS & OUTCOMES)\n\n" ++
        autobioRecent m ++ autobioPerf m ∧
    autobioPerf m =
      (if 3 ≤ (m.decisions.filter (fun d => d.outcome.isSome)).length then
        "Overall performance: Average reward " ++
          fmtFloat2
            (((m.decisions.filter (fun d => d.outcome.isSome)).map
                (fun d => d.reward.getD 0)).sum /
              ((m.decisions.filter (fun d => d.outcome.isSome)).length : Rat)) ++
          " across " ++ Nat.repr (m.decisions.filter (fun d => d.outcome.isSome)).length ++
          " decisions.\n"
       else "") := by
  constructor
  · rfl
  · have hperm := decisionsWithOutcomes_perm m
    have hlen := hperm.length_eq
    have hsum := (hperm.map (fun d => d.reward.getD 0)).sum_eq
    unfold autobioPerf autobioAvgReward
    rw [hlen, hsum]

theorem parse_decision_step_norec (st : DecisionFields) (line : String)
    (h : ¬ pyStartsWith line "RECOMMENDATION:" = true) :
    (parse_decision_step st line).recommendation = st.recommendation := by
  unfold parse_decision_step
  rw [if_neg h]
  by_cases h2 : pyStartsWith line "CONFIDENCE:" = true
  · rw [if_pos h2]
    split <;> rfl
  · rw [if_neg h2]
    by_cases h3 : pyStartsWith line "REASONING:" = true
    · rw [if_pos h3]
    · rw [if_neg h3]

theorem foldl_parse_decision_norec (lines : List String) :
    ∀ st : DecisionFields, (∀ line ∈ lines, ¬ pyStartsWith line "RECOMMENDATION:" = true) →
      (lines.foldl parse_decision_step st).recommendation = st.recommendation := by
  induction lines with
  | nil => intro st _; rfl
  | cons l t ih =>
    intro st h
    rw [List.foldl_cons]
    rw [ih _ (fun x hx => h x (List.mem_cons_of_mem l hx))]
    exact parse_decision_step_norec st l (h l (List.mem_cons_self l t))

theorem parse_decision_step_invalid (st : DecisionFields) (line : String)
    (h1 : pyStartsWith line "RECOMMENDATION:" = true)
    (h2 : ¬ (pyStrip (pyReplace line "RECOMMENDATION:" "") = "Long" ∨
             pyStrip (pyReplace line "RECOMMENDATION:" "") = "Short")) :
    parse_decision_step st line =
      { st with recommendation := if (1 : Rat)/2 < st.confidence then "Long" else "Short" } := by
  unfold parse_decision_step
  rw [if_pos h1]
  dsimp only
  rw [if_neg h2]

/-- C10, amended: if the reply contains a valid `RECOMMENDATION:` line and,
later, a `RECOMMENDATION:` line with an invalid value which no further
`RECOMMENDATION:` line follows, then the earlier valid recommendation is
discarded and the final recommendation is recomputed from the confidence
captured at the moment the invalid line is scanned (`> 0.5` yields "Long",
otherwise "Short"); without the no-later-line proviso a subsequent valid
line wins instead, see the counterexample. -/
theorem c10_amended (text vline iline : String) (pre mid post : List String)
    (hsplit : pySplitLines text = pre ++ vline :: (mid ++ iline :: post))
    (hv1 : pyStartsWith vline "RECOMMENDATION:" = true)
    (hv2 : pyStrip (pyReplace vline "RECOMMENDATION:" "") = "Long" ∨
           pyStrip (pyReplace vline "RECOMMENDATION:" "") = "Short")
    (hi1 : pyStartsWith iline "RECOMMENDATION:" = true)
    (hi2 : ¬ (pyStrip (pyReplace iline "RECOMMENDATION:" "") = "Long" ∨
              pyStrip (pyReplace iline "RECOMMENDATION:" "") = "Short"))
    (hpost : ∀ line ∈ post, ¬ pyStartsWith line "RECOMMENDATION:" = true) :
    (parse_decision text).recommendation =
      (if (1 : Rat)/2 <
          ((pre ++ vline :: mid).foldl parse_decision_step ⟨"", 1/2, ""⟩).confidence
       then "Long" else "Short") := by
  have hassoc : pre ++ vline :: (mid ++ iline :: post) =
      (pre ++ vline :: mid) ++ iline :: post := by
    simp [List.append_assoc]
  have hrec : ((pySplitLines text).foldl parse_decision_step ⟨"", 1/2, ""⟩).recommendation =
      (if (1 : Rat)/2 <
          ((pre ++ vline :: mid).foldl parse_decision_step ⟨"", 1/2, ""⟩).confidence
       then "Long" else "Short") := by
    rw [hsplit, hassoc, List.foldl_append, List.foldl_cons,
      parse_decision_step_invalid _ iline hi1 hi2,
      foldl_parse_decision_norec post _ hpost]
  simp only [parse_decision]
  rw [if_neg (by rw [hrec]; split_ifs <;> simp)]
  exact hrec

/-- C10, witness: on `"RECOMMENDATION: Long\nCONFIDENCE: 0.9\n`
`RECOMMENDATION: Hold"` the final recommendation equals the fallback over
the confidence captured before the invalid line. -/
theorem c10_witness :
    (parse_decision "RECOMMENDATION: Long\nCONFIDENCE: 0.9\nRECOMMENDATION: Hold").recommendation =
      (if (1 : Rat)/2 <
          ((["RECOMMENDATION: Long", "CONFIDENCE: 0.9"] : List String).foldl
            parse_decision_step ⟨"", 1/2, ""⟩).confidence
       then "Long" else "Short") :=
  c10_amended "RECOMMENDATION: Long\nCONFIDENCE: 0.9\nRECOMMENDATION: Hold"
    "RECOMMENDATION: Long" "RECOMMENDATION: Hold" [] ["CONFIDENCE: 0.9"] []
    (by decide) (by decide) (by decide) (by decide) (by decide) (by decide)

/-- C10, counterexample: in a reply where the invalid line is followed by a
further valid `RECOMMENDATION: Short` line, the claim's prediction "Long"
(from the confidence 0.9 captured when the invalid line is scanned) is
wrong — the code returns "Short". -/
theorem c10_counterexample :
    pySplitLines c10_input =
      ["RECOMMENDATION: Long", "CONFIDENCE: 0.9", "RECOMMENDATION: Hold",
        "RECOMMENDATION: Short"] ∧
    ((["RECOMMENDATION: Long", "CONFIDENCE: 0.9"] : List String).foldl
        parse_decision_step ⟨"", 1/2, ""⟩).confidence = 9/10 ∧
    (parse_decision c10_input).recommendation = "Short" ∧
    (parse_decision c10_input).recommendation ≠ "Long" := by
  decide

end MainTheorems

end CryptoAgent
